import Mathlib

/-!
Shallow embedding of the credential-aware client layer of depot_tools
(`gerrit_util.py` and `auth.py`), together with theorems settling the
specification claims about it.

Conventions used throughout:
* HTTP wall-clock time is modelled as an integer number of seconds.
* Sleep durations are modelled as natural numbers of milliseconds (the
  source uses the exact binary values 0.5 s, 1.0 s, 2.0 s, ...).
* A Python function that can fall off the end returning `None`, or raise,
  is modelled with `Option` / explicit result inductives.
* Response bodies are modelled as `List Char` so that the line-oriented
  sentinel check of `ReadHttpJsonResponse` can be expressed directly.
-/

namespace GerritUtil

/-- `TRY_LIMIT = 5` from gerrit_util.py. -/
def TRY_LIMIT : Nat := 5

/-- Model of an HTTP response as observed by `ReadHttpResponse`:
its status code, the parsed `www-authenticate` header
(`none` = header absent; `some realm?` = header present, with the realm
extracted by the `realm="..."` regex when it matches), and the body. -/
structure HttpResponse where
  status : Nat
  wwwAuthenticate : Option (Option String)
  body : List Char
deriving DecidableEq, Repr

/-- The auth-challenge test of `ReadHttpResponse`:
`response.status in (httplib.UNAUTHORIZED, httplib.FOUND) and www_authenticate`,
i.e. status 401 or 302 AND the `www-authenticate` header present. -/
def isAuthChallenge (r : HttpResponse) : Bool :=
  (r.status == 401 || r.status == 302) && r.wwwAuthenticate.isSome

/-- Outcome of the retry loop inside `ReadHttpResponse`: either the
`GerritAuthenticationError` raise (carrying the offending status and the
realm-or-host string of its message), or the response the loop stopped at.
Both carry the number of `getresponse` calls made and the list of sleep
durations performed (in milliseconds: the source sleeps 0.5 s, then doubles, and 0.5 s is modelled as 500 ms to stay in Nat), in order. -/
inductive LoopRes where
  | authError (status : Nat) (realmOrHost : String) (attempts : Nat) (sleeps : List Nat)
  | finished (resp : HttpResponse) (attempts : Nat) (sleeps : List Nat)
deriving DecidableEq, Repr

/-- The `for idx in range(TRY_LIMIT)` loop of `ReadHttpResponse`.
`responses i` is the response returned by the `i`-th `getresponse` call
(attempt `i` re-issues the identical `req_params` on a fresh connection,
which the model abstracts as the next element of the response stream).
`remaining` starts at `TRY_LIMIT` with `idx = 0`, so that the retry
guard `TRY_LIMIT - idx > 1` of the source is `remaining > 1` here.
The `remaining = 0` case is unreachable from the real entry point. -/
def readLoop (responses : Nat → HttpResponse) (host : String) :
    Nat → Nat → Nat → LoopRes
  | 0, idx, _ => .finished (responses idx) (idx + 1) []
  | remaining + 1, idx, sleepTime =>
    let r := responses idx
    if isAuthChallenge r then
      .authError r.status ((r.wwwAuthenticate.getD none).getD host) (idx + 1) []
    else if r.status < 500 then
      .finished r (idx + 1) []
    else if remaining + 1 > 1 then
      match readLoop responses host remaining (idx + 1) (sleepTime * 2) with
      | .authError s h a sl => .authError s h a (sleepTime :: sl)
      | .finished resp a sl => .finished resp a (sleepTime :: sl)
    else
      .finished r (idx + 1) []

/-- Result of `ReadHttpResponse`: the returned string buffer, the raised
`GerritError` (carrying its `http_status`), or the raised
`GerritAuthenticationError`. -/
inductive ReadResult where
  | ok (body : List Char)
  | gerritError (status : Nat)
  | authError (status : Nat) (realmOrHost : String)
deriving DecidableEq, Repr

/-- `ReadHttpResponse(conn, expect_status=200, ignore_404=True)`:
runs the retry loop, then applies the post-loop status handling
(404 with `ignore_404` returns an empty buffer; a status other than
`expect_status` raises `GerritError`; otherwise the body is returned).
Also returns the attempt count and the sleeps performed. -/
def ReadHttpResponse (responses : Nat → HttpResponse) (host : String)
    (expectStatus : Nat := 200) (ignore404 : Bool := true) :
    ReadResult × Nat × List Nat :=
  match readLoop responses host TRY_LIMIT 0 500 with
  | .authError s h a sl => (.authError s h, a, sl)
  | .finished r a sl =>
    if ignore404 && (r.status == 404) then (.ok [], a, sl)
    else if r.status ≠ expectStatus then (.gerritError r.status, a, sl)
    else (.ok r.body, a, sl)

/-- The whitespace set stripped by Python `str.rstrip()`. -/
def pyIsSpace (c : Char) : Bool :=
  c = ' ' || c = '\t' || c = '\n' || c = '\r' || c = '\x0b' || c = '\x0c'

/-- Python `s.rstrip()` on a character list. -/
def rstrip (l : List Char) : List Char :=
  (l.reverse.dropWhile pyIsSpace).reverse

/-- `fh.readline()` followed by `fh.read()`: splits a buffer into its
first line (including the trailing newline, empty iff the buffer is
empty) and the remainder. -/
def readline : List Char → List Char × List Char
  | [] => ([], [])
  | c :: rest =>
    if c = '\n' then ([c], rest)
    else
      let p := readline rest
      (c :: p.1, p.2)

/-- The fixed anti-hijacking sentinel that must open every JSON body:
close-paren, close-bracket, close-brace, single-quote (written via
character codes). -/
def jsonSentinel : List Char := [Char.ofNat 41, Char.ofNat 93, Char.ofNat 125, Char.ofNat 39]

/-- Result of `ReadHttpJsonResponse`. `parsed s` records that
`json.loads` was invoked on the remainder `s` after the first line;
`noContent` models the `return None` taken on an empty remainder;
`protocolError l` is the `GerritError(200, ...)` raise on a sentinel
mismatch at (non-empty) first line `l`; `httpError` and `httpAuthError`
propagate the raises of `ReadHttpResponse`. -/
inductive JsonReadResult where
  | parsed (rest : List Char)
  | noContent
  | protocolError (line : List Char)
  | httpError (status : Nat)
  | httpAuthError (status : Nat) (realmOrHost : String)
deriving DecidableEq, Repr

/-- `ReadHttpJsonResponse(conn, expect_status=200, ignore_404=True)`:
reads via `ReadHttpResponse`, then checks the first line of the body
(the check is skipped when `readline` returns an empty string), then
parses the remainder unless it is empty. -/
def ReadHttpJsonResponse (responses : Nat → HttpResponse) (host : String)
    (expectStatus : Nat := 200) (ignore404 : Bool := true) : JsonReadResult :=
  match ReadHttpResponse responses host expectStatus ignore404 with
  | (.authError s h, _, _) => .httpAuthError s h
  | (.gerritError s, _, _) => .httpError s
  | (.ok body, _, _) =>
    let p := readline body
    if p.1 ≠ [] ∧ rstrip p.1 ≠ jsonSentinel then .protocolError p.1
    else if p.2 = [] then .noContent
    else .parsed p.2

/-- A change record as seen by `GenerateAllChanges`: an identifying
number, whether the JSON object has a `_more_changes` key, and its
`_sortkey` value when that key is present. -/
structure Change where
  num : Nat
  moreChanges : Bool
  sortkey : Option String
deriving DecidableEq, Repr

/-- How a `GenerateAllChanges` run ends. `protocolError n` is the
`GerritError(200, ...)` raise when `n > 1` items of one page carry
`_more_changes`; `keyError` models the KeyError taken were the single
marked item to lack `_sortkey`; `outOfFuel` marks runs that did not
finish within the given page budget (the source loop is unbounded on a
server that keeps sending markers). -/
inductive GenOutcome where
  | done
  | protocolError (n : Nat)
  | keyError
  | outOfFuel
deriving DecidableEq, Repr

/-- The `while more_changes` loop of `GenerateAllChanges`. `fetch cursor`
models `QueryChanges(host, param_dict, first_param, limit, o_params,
sortkey)` returning the JSON-decoded page. Returns the items yielded in
order (a page is yielded before its markers are inspected), the number
of page fetches issued, and the outcome. -/
def generateAllLoop (fetch : Option String → List Change) :
    Nat → Option String → List Change × Nat × GenOutcome
  | 0, _ => ([], 0, .outOfFuel)
  | fuel + 1, sortkey =>
    let page := fetch sortkey
    let moreChanges := page.filter (fun cl => cl.moreChanges)
    if moreChanges.length > 1 then
      (page, 1, .protocolError moreChanges.length)
    else
      match moreChanges with
      | [] => (page, 1, .done)
      | cl :: _ =>
        match cl.sortkey with
        | none => (page, 1, .keyError)
        | some k =>
          let rest := generateAllLoop fetch fuel (some k)
          (page ++ rest.1, rest.2.1 + 1, rest.2.2)

/-- `GenerateAllChanges(host, param_dict, first_param, limit, o_params,
sortkey)`, run to completion within `fuel` page fetches. -/
def GenerateAllChanges (fetch : Option String → List Change) (fuel : Nat)
    (sortkey : Option String := none) : List Change × Nat × GenOutcome :=
  generateAllLoop fetch fuel sortkey

/-- The token JSON served by the metadata token endpoint
(`access_token`, `token_type`, `expires_in`). -/
structure TokenDict where
  accessToken : String
  tokenType : String
  expiresIn : ℤ
deriving DecidableEq, Repr

/-- A response from the metadata service: status plus the decoded token
body (inspected only when the status is 200). -/
structure GceResp where
  status : Nat
  body : TokenDict
deriving DecidableEq, Repr

/-- Result of a Python fragment that may raise `AttributeError` by
dereferencing `None`. -/
inductive PyResult (α : Type) where
  | ok (a : α)
  | attributeError
deriving DecidableEq, Repr

/-- The `for i in xrange(TRY_LIMIT)` loop of `GceAuthenticator._get`:
returns the first response whose status is below 500 and implicitly
returns `None` when all `TRY_LIMIT` responses are server errors (the
sleeps of 1, 2, 4, 8 seconds between attempts are not modelled). -/
def gceGetLoop (responses : Nat → GceResp) : Nat → Nat → Option GceResp
  | 0, _ => none
  | remaining + 1, i =>
    let resp := responses i
    if resp.status < 500 then some resp
    else gceGetLoop responses remaining (i + 1)

/-- `GceAuthenticator._get(url, **kwargs)` with `responses i` the
response to the i-th attempt. -/
def gceGet (responses : Nat → GceResp) : Option GceResp :=
  gceGetLoop responses TRY_LIMIT 0

/-- The class-level token cache of `GceAuthenticator`:
`_token_cache` (a dict or `None`; an empty dict is modelled as `none`
since both are falsy) and `_token_expiration`. -/
structure GceState where
  tokenCache : Option TokenDict
  tokenExpiration : ℤ
deriving DecidableEq, Repr

/-- `GceAuthenticator._get_token_dict()`. `now` is `time.time()`;
`fetched` is the value of `cls._get(cls._ACQUIRE_URL, headers=...)`
(`none` when every attempt hit a server error). Returns the value the
method returns (itself optional: the status-not-200 branch returns
`None`) together with the updated class state, or the `AttributeError`
raised by evaluating `resp.status` when `resp` is `None`. -/
def get_token_dict (st : GceState) (now : ℤ) (fetched : Option GceResp) :
    PyResult (Option TokenDict × GceState) :=
  if st.tokenCache.isSome ∧ st.tokenExpiration < now - 25 then
    .ok (st.tokenCache, st)
  else
    match fetched with
    | none => .attributeError
    | some resp =>
      if resp.status ≠ 200 then .ok (none, st)
      else
        let newSt : GceState := ⟨some resp.body, resp.body.expiresIn + now⟩
        .ok (some resp.body, newSt)

/-- `GceAuthenticator.get_auth_header(host)`: formats
`"<token_type> <access_token>"` from the token dict, or returns `None`
when no token dict was obtained; propagates the `AttributeError` of
`_get_token_dict`. -/
def gce_get_auth_header (st : GceState) (now : ℤ) (fetched : Option GceResp) :
    PyResult (Option String × GceState) :=
  match get_token_dict st now fetched with
  | .attributeError => .attributeError
  | .ok (none, st2) => .ok (none, st2)
  | .ok (some d, st2) => .ok (some (d.tokenType ++ " " ++ d.accessToken), st2)

end GerritUtil

namespace Auth

/-- The `AccessToken` namedtuple of auth.py: token string and optional
expiry (a UTC datetime, modelled as integer seconds; `none` if
unknown). -/
structure AccessToken where
  token : String
  expiresAt : Option ℤ
deriving DecidableEq, Repr

/-- The `RefreshToken` namedtuple of auth.py (read from
`--auth-refresh-token-json`). -/
structure RefreshToken where
  clientId : String
  clientSecret : String
  refreshToken : String
deriving DecidableEq, Repr

/-- `_needs_refresh(access_token)`: when an expiry is present, refresh
exactly when `utcnow + timedelta(seconds=300) ≥ expires_at`; a token
without an expiry never expires. `now` models
`datetime.datetime.utcnow()` in seconds. -/
def needs_refresh (now : ℤ) (accessToken : AccessToken) : Bool :=
  match accessToken.expiresAt with
  | some e => decide (now + 300 ≥ e)
  | none => false

/-- The fields of an `oauth2client` credentials object that the embedded
code inspects. String fields that can be `None` (or empty, which Python
treats identically under truthiness tests) are modelled as `Option`. -/
structure Credentials where
  accessToken : Option String
  refreshToken : Option String
  revokeUri : Option String
  tokenExpiry : Option ℤ
  invalid : Bool
deriving DecidableEq, Repr

/-- The per-`Authenticator` state touched by `logout`: the in-memory
`_access_token` and the storage entry under the cache key (`none` = no
entry in the token cache file). -/
structure AuthState where
  accessToken : Option AccessToken
  storage : Option Credentials
deriving DecidableEq, Repr

/-- `Authenticator.logout()`. `revokeRaises` says whether
`credentials.revoke(httplib2.Http())` raises `TokenRevokeError` (which
is caught and logged). Returns `had_creds`, the state after
`storage.delete()`, and whether a revocation failure was logged. -/
def logout (st : AuthState) (revokeRaises : Bool) : Bool × AuthState × Bool :=
  let credentials := st.storage
  let hadCreds := credentials.isSome
  let revokeAttempted :=
    match credentials with
    | some c => c.refreshToken.isSome && c.revokeUri.isSome
    | none => false
  let warned := revokeAttempted && revokeRaises
  (hadCreds, ⟨none, none⟩, warned)

/-- Possible outcomes of `Authenticator._create_access_token`. -/
inductive TokenResult where
  | ok (tok : AccessToken)
  | authError (msg : String)
  | loginRequired (cacheKey : String)
deriving DecidableEq, Repr

/-- `AccessToken(str(credentials.access_token), credentials.token_expiry)`
as built at the end of `_create_access_token` (Python `str(None)` is the
string "None"). -/
def credentialsAccessToken (c : Credentials) : AccessToken :=
  ⟨c.accessToken.getD "None", c.tokenExpiry⟩

/-- Environment of one `_create_access_token` call: the result of
`self._get_cached_credentials()`, whether `credentials.refresh(...)`
succeeds (it raises `client.Error` otherwise), the credentials state
after a successful refresh, and the result of `_run_oauth_dance`
(`Except.error` = the `AuthenticationError` message raised by the
dance). -/
structure MintEnv where
  cached : Option Credentials
  refreshSucceeds : Bool
  refreshedCreds : Credentials
  danceResult : Except String Credentials

/-- Whether the silent-refresh arm of `_create_access_token` ends with
`refreshed = True`: cached credentials exist, are not invalid, and the
network refresh succeeds. -/
def silentRefreshSucceeds (env : MintEnv) : Bool :=
  match env.cached with
  | some c => !c.invalid && env.refreshSucceeds
  | none => false

/-- `Authenticator._create_access_token(allow_user_interaction)`.
`externalToken` is `self._external_token` (set iff
`--auth-refresh-token-json` was supplied); `cacheKey` is
`self._token_cache_key`. The boolean part of the result records whether
the interactive OAuth dance was launched. The `storage.put` performed on
success is not part of the returned value and is not modelled. -/
def create_access_token (externalToken : Option RefreshToken) (cacheKey : String)
    (env : MintEnv) (allowUserInteraction : Bool) : TokenResult × Bool :=
  if silentRefreshSucceeds env then
    (.ok (credentialsAccessToken env.refreshedCreds), false)
  else if externalToken.isSome then
    (.authError "Token provided via --auth-refresh-token-json is no longer valid.", false)
  else if !allowUserInteraction then
    (.loginRequired cacheKey, false)
  else
    match env.danceResult with
    | .error msg => (.authError msg, true)
    | .ok creds => (.ok (credentialsAccessToken creds), true)

end Auth

namespace GerritUtil

/-- The page fetcher of the two-page pagination scenario: the first page
(no cursor) returns two items, the second of which carries the
`_more_changes` marker and cursor "k1"; the page at cursor "k1" returns
one unmarked item; any other cursor returns an empty page. -/
def twoPageFetch : Option String → List Change
  | none => [⟨1, false, none⟩, ⟨2, true, some "k1"⟩]
  | some k => if k = "k1" then [⟨3, false, none⟩] else []

/-- A response with a server-error status (≥ 500) never satisfies the
auth-challenge test, whose statuses are 401 and 302. -/
theorem isAuthChallenge_of_server_error (r : HttpResponse) (h : 500 ≤ r.status) :
    isAuthChallenge r = false := by
  unfold isAuthChallenge
  have h1 : (r.status == 401) = false := by simp; omega
  have h2 : (r.status == 302) = false := by simp; omega
  simp [h1, h2]

/-- One retry step of the `ReadHttpResponse` loop: a server-error
response with retry budget left sleeps `sleepTime`, re-issues the
request, and continues with the doubled sleep time. -/
theorem readLoop_retry (responses : Nat → HttpResponse) (host : String)
    (remaining idx sleepTime : Nat) (h : 500 ≤ (responses idx).status)
    (hr : 0 < remaining) :
    readLoop responses host (remaining + 1) idx sleepTime =
      (match readLoop responses host remaining (idx + 1) (sleepTime * 2) with
       | .authError s hh a sl => .authError s hh a (sleepTime :: sl)
       | .finished resp a sl => .finished resp a (sleepTime :: sl)) := by
  have hch := isAuthChallenge_of_server_error (responses idx) h
  have hlt : ¬ ((responses idx).status < 500) := by omega
  have hgt : remaining + 1 > 1 := by omega
  simp only [readLoop, hch, hlt, hgt]
  simp

/-- Final step of the `ReadHttpResponse` loop: a 200 response stops the
loop at once. -/
theorem readLoop_finish (responses : Nat → HttpResponse) (host : String)
    (remaining idx sleepTime : Nat) (hok : (responses idx).status = 200) :
    readLoop responses host (remaining + 1) idx sleepTime
      = .finished (responses idx) (idx + 1) [] := by
  have hch : isAuthChallenge (responses idx) = false := by
    unfold isAuthChallenge
    simp [hok]
  have hlt : (responses idx).status < 500 := by omega
  simp [readLoop, hch, hlt]

/-- C4: `ReadHttpResponse` retries server-error responses with
exponential backoff starting at 0.5 s and doubling each attempt,
re-issuing the identical request, with at most `TRY_LIMIT = 5` attempts:
whenever attempts 0 through 3 return statuses ≥ 500 and attempt 4
returns the expected status 200, the call makes exactly 5 attempts,
sleeps 0.5 s, 1 s, 2 s, 4 s between them (in milliseconds here), and
returns the body of the final, successful response. -/
theorem c4_retry_backoff (responses : Nat → HttpResponse) (host : String)
    (h5 : ∀ i, i < 4 → 500 ≤ (responses i).status)
    (hok : (responses 4).status = 200) :
    ReadHttpResponse responses host 200 true
      = (.ok (responses 4).body, 5, [500, 1000, 2000, 4000]) := by
  have e4 : readLoop responses host 1 4 8000 = .finished (responses 4) 5 [] :=
    readLoop_finish responses host 0 4 8000 hok
  have e3 : readLoop responses host 2 3 4000 = .finished (responses 4) 5 [4000] := by
    rw [readLoop_retry responses host 1 3 4000 (h5 3 (by omega)) (by omega)]
    norm_num [e4]
  have e2 : readLoop responses host 3 2 2000 = .finished (responses 4) 5 [2000, 4000] := by
    rw [readLoop_retry responses host 2 2 2000 (h5 2 (by omega)) (by omega)]
    norm_num [e3]
  have e1 : readLoop responses host 4 1 1000 = .finished (responses 4) 5 [1000, 2000, 4000] := by
    rw [readLoop_retry responses host 3 1 1000 (h5 1 (by omega)) (by omega)]
    norm_num [e2]
  have e0 : readLoop responses host 5 0 500
      = .finished (responses 4) 5 [500, 1000, 2000, 4000] := by
    rw [readLoop_retry responses host 4 0 500 (h5 0 (by omega)) (by omega)]
    norm_num [e1]
  unfold ReadHttpResponse TRY_LIMIT
  rw [e0]
  simp [hok]

/-- Witness for C4 at a concrete response stream: four 503 responses
followed by a 200 carrying body "ok". -/
theorem c4_retry_backoff_witness :
    ReadHttpResponse
        (fun i => if i < 4 then ⟨503, none, []⟩ else ⟨200, none, ['o', 'k']⟩) "h" 200 true
      = (.ok ['o', 'k'], 5, [500, 1000, 2000, 4000]) :=
  c4_retry_backoff _ "h" (fun i hi => by interval_cases i <;> decide) (by decide)

/-- C2 counterexample: the claim says every 401 response fails with
`AuthenticationError`, but a 401 response that carries no
`www-authenticate` header is not treated as an auth challenge by
`ReadHttpResponse`: the loop stops after one attempt and the call fails
with the plain `GerritError` (the `GerritAuthenticationError` subclass is
not raised). -/
theorem c2_counterexample :
    ReadHttpResponse (fun _ => ⟨401, none, []⟩) "myhost" 200 true
      = (.gerritError 401, 1, []) := by decide

/-- C2 (amended): a response with status 401 or 302 that carries a
`www-authenticate` header makes `ReadHttpResponse` fail immediately with
`GerritAuthenticationError` naming the realm of the challenge header (or
the request host when no realm parses): exactly one attempt, no sleeps,
no retry. -/
theorem c2_auth_challenge (responses : Nat → HttpResponse) (host : String)
    (expectStatus : Nat) (ignore404 : Bool)
    (hst : (responses 0).status = 401 ∨ (responses 0).status = 302)
    (hdr : (responses 0).wwwAuthenticate.isSome = true) :
    ReadHttpResponse responses host expectStatus ignore404
      = (.authError (responses 0).status
           (((responses 0).wwwAuthenticate.getD none).getD host), 1, []) := by
  have hch : isAuthChallenge (responses 0) = true := by
    unfold isAuthChallenge
    rcases hst with h | h <;> simp [h, hdr]
  unfold ReadHttpResponse TRY_LIMIT
  simp [readLoop, hch]

/-- Witness for C2 at a concrete 401 response carrying
`www-authenticate` with realm "gerrit". -/
theorem c2_auth_challenge_witness :
    ReadHttpResponse (fun _ => ⟨401, some (some "gerrit"), []⟩) "myhost" 200 true
      = (.authError 401 "gerrit", 1, []) :=
  c2_auth_challenge _ "myhost" 200 true (Or.inl (by decide)) (by decide)

/-- C3 counterexample: the claim says a body with a missing sentinel
line fails with a protocol error, but on an empty body (no first line at
all) `ReadHttpJsonResponse` takes the `if s` guard as false, skips the
sentinel check, and returns `None` without raising. -/
theorem c3_counterexample :
    ReadHttpJsonResponse (fun _ => ⟨200, none, []⟩) "myhost" 200 true
      = .noContent := by decide

/-- C3 (amended): whenever `ReadHttpResponse` hands back a body whose
first line is non-empty and, after stripping trailing whitespace,
differs from the anti-hijacking sentinel, `ReadHttpJsonResponse` raises
the protocol error (`GerritError(200, ...)`) and never reaches the JSON
parse; an empty body is returned as `None` without the sentinel check. -/
theorem c3_sentinel (responses : Nat → HttpResponse) (host : String)
    (expectStatus : Nat) (ignore404 : Bool) (body : List Char) (a : Nat) (sl : List Nat)
    (hok : ReadHttpResponse responses host expectStatus ignore404 = (.ok body, a, sl))
    (hne : (readline body).1 ≠ [])
    (hsent : rstrip (readline body).1 ≠ jsonSentinel) :
    ReadHttpJsonResponse responses host expectStatus ignore404
      = .protocolError (readline body).1 := by
  unfold ReadHttpJsonResponse
  rw [hok]
  simp [hne, hsent]

/-- Witness for C3 at a concrete 200 response whose body is the single
line "bad" (no sentinel). -/
theorem c3_sentinel_witness :
    ReadHttpJsonResponse (fun _ => ⟨200, none, ['b', 'a', 'd']⟩) "myhost" 200 true
      = .protocolError ['b', 'a', 'd'] :=
  c3_sentinel _ "myhost" 200 true ['b', 'a', 'd'] 1 [] (by decide) (by decide) (by decide)

/-- C5: on the two-page scenario (page 1: two items, the second marked
with cursor "k1"; page 2 at "k1": one unmarked item) the generator
yields exactly the three items in page order, issues exactly 2 page
fetches, and the run ends normally because the last page carries no
marker — even though 5 more page fetches of budget were available. -/
theorem c5_pagination :
    GenerateAllChanges twoPageFetch 5 none
      = ([⟨1, false, none⟩, ⟨2, true, some "k1"⟩, ⟨3, false, none⟩], 2, .done) := by
  decide

/-- C6: whatever page fetcher, remaining budget and cursor are in play,
if the page fetched at the current cursor contains more than one item
carrying the `_more_changes` marker, the generator yields exactly that
page and then raises the protocol error (`GerritError(200, ...)`) after
a single fetch: no further items are yielded and no further page is
fetched. -/
theorem c6_double_marker (fetch : Option String → List Change) (fuel : Nat)
    (sortkey : Option String)
    (h : 1 < ((fetch sortkey).filter (fun cl => cl.moreChanges)).length) :
    GenerateAllChanges fetch (fuel + 1) sortkey
      = (fetch sortkey, 1,
         .protocolError ((fetch sortkey).filter (fun cl => cl.moreChanges)).length) := by
  unfold GenerateAllChanges generateAllLoop
  simp [h]

/-- Witness for C6 at a concrete page carrying two marked items. -/
theorem c6_double_marker_witness :
    GenerateAllChanges (fun _ => [⟨1, true, some "a"⟩, ⟨2, true, some "b"⟩]) 3 none
      = ([⟨1, true, some "a"⟩, ⟨2, true, some "b"⟩], 1, .protocolError 2) :=
  c6_double_marker _ 2 none (by decide)

/-- C1 (code bug): `_get_token_dict` compares the cached expiry the
wrong way round. With a cached token that expires 900 s in the future
(state expiry 1000, now 100) the claim, and the inline comment of the
source ("If it expires within 25 seconds, refresh"), say the cached
token is returned without fetching; instead the code takes the fetch
path and overwrites the cache with the freshly fetched dict. Conversely
at now 2000 — 1000 s after the cached expiry — the code returns the
stale cached token, for every possible fetch result. -/
theorem c1_gce_token_cache_code_bug :
    (get_token_dict ⟨some ⟨"cached", "Bearer", 3600⟩, 1000⟩ 100
        (some ⟨200, ⟨"fresh", "Bearer", 3600⟩⟩)
      = .ok (some ⟨"fresh", "Bearer", 3600⟩, ⟨some ⟨"fresh", "Bearer", 3600⟩, 3700⟩)) ∧
    (∀ fetched, get_token_dict ⟨some ⟨"cached", "Bearer", 3600⟩, 1000⟩ 2000 fetched
      = .ok (some ⟨"cached", "Bearer", 3600⟩, ⟨some ⟨"cached", "Bearer", 3600⟩, 1000⟩)) := by
  constructor
  · decide
  · intro fetched
    unfold get_token_dict
    norm_num

/-- C10: when every one of the `TRY_LIMIT = 5` attempts of
`GceAuthenticator._get` receives a server-error (≥ 500) response, `_get`
falls off its loop and returns `None`; `_get_token_dict` (here on a cold
cache) then evaluates `resp.status` on that `None` and the call raises
`AttributeError` — `get_auth_header` crashes rather than returning the
absent header `None`. -/
theorem c10_gce_crash (responses : Nat → GceResp) (now : ℤ)
    (h : ∀ i, i < TRY_LIMIT → 500 ≤ (responses i).status) :
    gceGet responses = none ∧
    gce_get_auth_header ⟨none, 0⟩ now (gceGet responses) = .attributeError := by
  have h0 : ¬ (responses 0).status < 500 := by have := h 0 (by decide); omega
  have h1 : ¬ (responses 1).status < 500 := by have := h 1 (by decide); omega
  have h2 : ¬ (responses 2).status < 500 := by have := h 2 (by decide); omega
  have h3 : ¬ (responses 3).status < 500 := by have := h 3 (by decide); omega
  have h4 : ¬ (responses 4).status < 500 := by have := h 4 (by decide); omega
  have key : gceGet responses = none := by
    unfold gceGet TRY_LIMIT
    simp [gceGetLoop, h0, h1, h2, h3, h4]
  refine ⟨key, ?_⟩
  rw [key]
  unfold gce_get_auth_header get_token_dict
  simp

/-- Witness for C10 at a metadata service that always answers 503. -/
theorem c10_gce_crash_witness :
    gceGet (fun _ => ⟨503, ⟨"t", "Bearer", 3600⟩⟩) = none ∧
    gce_get_auth_header ⟨none, 0⟩ 0 (gceGet (fun _ => ⟨503, ⟨"t", "Bearer", 3600⟩⟩))
      = .attributeError :=
  c10_gce_crash _ 0 (fun i _ => by decide)

end GerritUtil

namespace Auth

/-- C7: `_needs_refresh` reports a token with a known expiry as needing
refresh exactly when `now` plus the 300-second skew reaches or passes
`expires_at`, and reports a token without an expiry as never needing
refresh. -/
theorem c7_needs_refresh (now : ℤ) (tok : AccessToken) :
    (∀ e, tok.expiresAt = some e → (needs_refresh now tok = true ↔ now + 300 ≥ e)) ∧
    (tok.expiresAt = none → needs_refresh now tok = false) := by
  constructor
  · intro e he
    unfold needs_refresh
    rw [he]
    simp
  · intro he
    unfold needs_refresh
    rw [he]

/-- Witness for C7: a token expiring exactly at the skew boundary is
refreshed; a token with no expiry is not. -/
theorem c7_needs_refresh_witness :
    needs_refresh 0 ⟨"t", some 300⟩ = true ∧ needs_refresh 0 ⟨"t", none⟩ = false :=
  ⟨((c7_needs_refresh 0 ⟨"t", some 300⟩).1 300 rfl).mpr (by norm_num),
   (c7_needs_refresh 0 ⟨"t", none⟩).2 rfl⟩

/-- C8: `logout` always clears the in-memory token and deletes the
storage entry (for every revocation outcome, so a failed server-side
revocation is only logged, never fatal), returns true exactly when a
credential existed in the cache beforehand, and therefore a second
consecutive `logout` returns false. -/
theorem c8_logout (st : AuthState) (revokeRaises revokeRaises2 : Bool) :
    (logout st revokeRaises).1 = st.storage.isSome ∧
    (logout st revokeRaises).2.1 = ⟨none, none⟩ ∧
    (logout (logout st revokeRaises).2.1 revokeRaises2).1 = false :=
  ⟨rfl, rfl, rfl⟩

/-- C9: whenever the silent refresh of `_create_access_token` is
impossible (no cached credentials, or invalid ones) or fails, then:
with an externally supplied refresh token configured the call raises
`AuthenticationError`; otherwise with interaction disallowed it raises
`LoginRequiredError` carrying the token cache key; and only in the
remaining case — no external token, interaction allowed — is the
interactive OAuth dance launched. In the first two cases the dance is
not run. -/
theorem c9_refresh_failure (externalToken : Option RefreshToken) (cacheKey : String)
    (env : MintEnv) (allowUserInteraction : Bool)
    (hfail : silentRefreshSucceeds env = false) :
    (externalToken.isSome = true →
      create_access_token externalToken cacheKey env allowUserInteraction
        = (.authError "Token provided via --auth-refresh-token-json is no longer valid.",
           false)) ∧
    (externalToken = none → allowUserInteraction = false →
      create_access_token externalToken cacheKey env allowUserInteraction
        = (.loginRequired cacheKey, false)) ∧
    (externalToken = none → allowUserInteraction = true →
      (create_access_token externalToken cacheKey env allowUserInteraction).2 = true) := by
  refine ⟨?_, ?_, ?_⟩
  · intro hext
    unfold create_access_token
    simp [hfail, hext]
  · intro hext hint
    unfold create_access_token
    simp [hfail, hext, hint]
  · intro hext hint
    unfold create_access_token
    rcases hd : env.danceResult with msg | creds <;> simp [hfail, hext, hint, hd]

/-- Witness for C9: an empty cache (silent refresh impossible) with an
external token fails with `AuthenticationError`; without one and with
interaction disallowed it fails with `LoginRequiredError` carrying the
cache key. -/
theorem c9_refresh_failure_witness :
    (create_access_token (some ⟨"id", "secret", "rt"⟩) "chromium.example"
        ⟨none, false, ⟨none, none, none, none, false⟩, .error "x"⟩ false
      = (.authError "Token provided via --auth-refresh-token-json is no longer valid.",
         false)) ∧
    (create_access_token none "chromium.example"
        ⟨none, false, ⟨none, none, none, none, false⟩, .error "x"⟩ false
      = (.loginRequired "chromium.example", false)) :=
  ⟨(c9_refresh_failure (some ⟨"id", "secret", "rt"⟩) "chromium.example"
      ⟨none, false, ⟨none, none, none, none, false⟩, .error "x"⟩ false rfl).1 rfl,
   (c9_refresh_failure none "chromium.example"
      ⟨none, false, ⟨none, none, none, none, false⟩, .error "x"⟩ false rfl).2.1 rfl rfl⟩

end Auth
